import Mathlib

/-!
Verification development for the Weekly-Meal-Plan subscription backend.

The definitions below are a shallow embedding of the Netlify serverless
functions of the repository:

* netlify/functions/stripe-webhook.js   (billing event processor)
* netlify/functions/create-subscription.js   (checkout, catalog, customer)
* the redundant evolutions of create-subscription.js kept in the repository
  (the coupon flow, the catalog-reconciling flow, the promotional-metadata
  initialisation).

JavaScript-specific behaviour that the code relies on (falsy strings,
parseInt, the n-or-default idiom) is modelled explicitly.
-/

/-- JavaScript truthiness for an optional string: undefined and the empty
string are both falsy. -/
def jsFalsy (o : Option String) : Bool :=
  o.getD "" == ""

/-- Numeric value of a list of decimal digit characters. -/
def digitsVal (cs : List Char) : Nat :=
  cs.foldl (fun a c => a * 10 + (c.toNat - 48)) 0

/-- JavaScript parseInt on a string (base 10): skips leading whitespace,
accepts an optional sign, reads the longest prefix of decimal digits;
returns none for NaN (no digits). -/
def parseIntJS (s : String) : Option Int :=
  let cs := s.toList.dropWhile Char.isWhitespace
  match cs with
  | '-' :: rest =>
    let ds := rest.takeWhile Char.isDigit
    if ds.isEmpty then none else some (-(digitsVal ds : Int))
  | '+' :: rest =>
    let ds := rest.takeWhile Char.isDigit
    if ds.isEmpty then none else some (digitsVal ds)
  | _ =>
    let ds := cs.takeWhile Char.isDigit
    if ds.isEmpty then none else some (digitsVal ds)

/-- parseInt applied to a possibly-undefined metadata value
(parseInt of undefined is NaN). -/
def parseOptIntJS (o : Option String) : Option Int :=
  match o with
  | some s => parseIntJS s
  | none => none

/-- The JavaScript idiom n-or-default: NaN and 0 both fall back to the
default. -/
def jsOrDefault (o : Option Int) (d : Int) : Int :=
  match o with
  | some n => if n = 0 then d else n
  | none => d

/-- JavaScript comparison a is-at-least b where a may be NaN
(any comparison with NaN is false). -/
def jsGe (a : Option Int) (b : Int) : Bool :=
  match a with
  | some x => decide (b ≤ x)
  | none => false

/-- JavaScript number toString, where the number may be NaN. -/
def jsNumToString (o : Option Int) : String :=
  match o with
  | some n => toString n
  | none => "NaN"

/-- The subscription metadata keys used by the repository.  Stripe metadata
is a string-to-string map; setting a key to null in an update deletes it,
modelled here as the value none. -/
structure Metadata where
  customer_email : Option String
  customer_name : Option String
  plan_type : Option String
  promotional_weeks_used : Option String
  promotional_weeks_total : Option String
  regular_price_amount : Option String
  price_tier : Option String
deriving DecidableEq, Repr

/-- The inline price terms attached to a subscription item
(currency, product name, amount in minor units, billing interval). -/
structure PriceData where
  currency : String
  productName : String
  unit_amount : Int
  interval : String
deriving DecidableEq, Repr

/-- A billing-platform subscription as the webhook sees it: identifier,
the active price of its single item, and its metadata map. -/
structure Subscription where
  id : String
  price : PriceData
  metadata : Metadata
deriving DecidableEq, Repr

/-- The regular-tier price terms hardcoded in the webhook switch branch
(stripe-webhook.js, the subscriptions.update call: currency aud, product
name Weekly Meal Plan, unit_amount 2000, weekly). -/
def regularPriceData : PriceData :=
  { currency := "aud", productName := "Weekly Meal Plan",
    unit_amount := 2000, interval := "week" }

/-- The promotional inline price used at subscription creation in the
promotional variant of create-subscription.js (unit_amount 1000, weekly). -/
def promotionalPriceData : PriceData :=
  { currency := "aud", productName := "Weekly Meal Plan (Promotional Rate)",
    unit_amount := 1000, interval := "week" }

/-- The metadata written at subscription creation by the promotional
variant of create-subscription.js: counters initialised to 0 of 4 and the
regular amount 2000 stored for later. -/
def initialPromotionalMetadata (email name : String) : Metadata :=
  { customer_email := some email, customer_name := some name,
    plan_type := some "weekly-meal-plan",
    promotional_weeks_used := some "0",
    promotional_weeks_total := some "4",
    regular_price_amount := some "2000",
    price_tier := none }

/-- The promotional-counter update the webhook performs for an
invoice.payment_succeeded event on a retrieved subscription
(stripe-webhook.js, invoice.payment_succeeded case):
if the promotional_weeks_used key is present, parse it, add one, compare
with promotional_weeks_total (defaulting to 4); at or past the threshold
replace the price with the hardcoded regular terms and null out the two
counter keys, otherwise write the incremented counter back. -/
def processPaymentSucceeded (sub : Subscription) : Subscription :=
  match sub.metadata.promotional_weeks_used with
  | none => sub
  | some usedStr =>
    let weeksUsed : Option Int := (parseIntJS usedStr).map (fun n => n + 1)
    let totalPromotionalWeeks : Int :=
      jsOrDefault (parseOptIntJS sub.metadata.promotional_weeks_total) 4
    if jsGe weeksUsed totalPromotionalWeeks then
      { sub with
        price := regularPriceData
        metadata := { sub.metadata with
                      promotional_weeks_used := none
                      promotional_weeks_total := none
                      price_tier := some "regular" } }
    else
      { sub with
        metadata := { sub.metadata with
                      promotional_weeks_used := some (jsNumToString weeksUsed) } }

/-- The billing events the webhook switches on.  A successful-payment event
carries the invoice identifier and the invoice's subscription reference. -/
inductive BillingEvent where
  | invoicePaymentSucceeded (invoiceId : String) (subscriptionRef : Option String)
  | invoicePaymentFailed (subscriptionRef : Option String)
  | customerSubscriptionDeleted (subscriptionId : String)
  | otherEvent (eventType : String)
deriving DecidableEq, Repr

/-- Effect of one webhook delivery on one subscription: only a
successful-payment event whose invoice references this subscription
mutates it; payment-failed, subscription-deleted and unhandled events
leave it unchanged (stripe-webhook.js switch statement). -/
def processEvent (sub : Subscription) (e : BillingEvent) : Subscription :=
  match e with
  | .invoicePaymentSucceeded _ subRef =>
    match subRef with
    | some sid => if sid = sub.id then processPaymentSucceeded sub else sub
    | none => sub
  | _ => sub

/-- Effect of a sequence of webhook deliveries on one subscription. -/
def applyEvents (sub : Subscription) (es : List BillingEvent) : Subscription :=
  es.foldl processEvent sub

/-- A subscription with its promotional_weeks_used metadata overwritten. -/
def withUsed (sub : Subscription) (u : String) : Subscription :=
  { sub with metadata := { sub.metadata with promotional_weeks_used := some u } }

/-- A subscription with its promotional_weeks_total metadata overwritten. -/
def withTotal (sub : Subscription) (t : String) : Subscription :=
  { sub with metadata := { sub.metadata with promotional_weeks_total := some t } }

/-- The regular-tier form the webhook leaves a subscription in after the
switch: hardcoded regular price, both counter keys deleted, price_tier set
to regular, everything else untouched. -/
def regularized (sub : Subscription) : Subscription :=
  { sub with
    price := regularPriceData
    metadata := { sub.metadata with
                  promotional_weeks_used := none
                  promotional_weeks_total := none
                  price_tier := some "regular" } }

/-- The five metadata shapes a subscription that started with counters
0 of 4 can be in after any number of webhook deliveries. -/
def reachShape (sub0 s : Subscription) : Prop :=
  s = withUsed (withTotal sub0 "4") "0" ∨
  s = withUsed (withTotal sub0 "4") "1" ∨
  s = withUsed (withTotal sub0 "4") "2" ∨
  s = withUsed (withTotal sub0 "4") "3" ∨
  s = regularized sub0

/-- The spec invariant on the promotional counter, read off the metadata
strings: whenever both counter keys are present and parse as integers,
0 is at most weeks_used and weeks_used is at most weeks_total. -/
def countersWithin (s : Subscription) : Prop :=
  ∀ u t nu nt, s.metadata.promotional_weeks_used = some u →
    s.metadata.promotional_weeks_total = some t →
    parseIntJS u = some nu → parseIntJS t = some nt →
    0 ≤ nu ∧ nu ≤ nt

/-- A concrete promotional subscription as the promotional variant of
create-subscription.js creates it. -/
def promoSub : Subscription :=
  { id := "sub_1", price := promotionalPriceData,
    metadata := initialPromotionalMetadata "a@x.com" "A" }

/-- Four successful-payment deliveries for promoSub, distinct invoices. -/
def fourPaymentEvents : List BillingEvent :=
  [BillingEvent.invoicePaymentSucceeded "in_1" (some "sub_1"),
   BillingEvent.invoicePaymentSucceeded "in_2" (some "sub_1"),
   BillingEvent.invoicePaymentSucceeded "in_3" (some "sub_1"),
   BillingEvent.invoicePaymentSucceeded "in_4" (some "sub_1")]

/-- A promotional subscription one event away from the threshold whose
stored regular_price_amount (2500) differs from the webhook's hardcoded
regular amount (2000). -/
def c4Sub : Subscription :=
  { id := "sub_2", price := promotionalPriceData,
    metadata := { initialPromotionalMetadata "b@x.com" "B" with
                  promotional_weeks_used := some "3"
                  regular_price_amount := some "2500" } }

/-- A billing-platform product: identifier, display name, and the
plan_type metadata tag the reconciling variant searches on. -/
structure Product where
  id : String
  name : String
  planTypeMeta : Option String
deriving DecidableEq, Repr

/-- A billing-platform recurring price: identifier, owning product,
amount in minor units, currency, and recurring interval (none for a
one-time price). -/
structure Price where
  id : String
  product : String
  unit_amount : Int
  currency : String
  interval : Option String
deriving DecidableEq, Repr

/-- The slice of external platform state the catalog reconciler touches.
Lists are newest-first, as the platform returns them; nextId provides
fresh identifiers for created objects. -/
structure CatalogState where
  products : List Product
  prices : List Price
  nextId : Nat
deriving DecidableEq, Repr

/-- The product test of the reconciling variant of create-subscription.js:
metadata plan_type equals weekly-meal-plan. -/
def productMatchesPlan (p : Product) : Bool :=
  p.planTypeMeta == some "weekly-meal-plan"

/-- The price test of the reconciling variant: unit_amount 2000, currency
aud, recurring interval week. -/
def priceMatchesPlan (p : Price) : Bool :=
  p.unit_amount == 2000 && p.currency == "aud" && p.interval == some "week"

/-- The product the reconciling variant creates when none matches. -/
def planProduct (st : CatalogState) : Product :=
  { id := "prod_" ++ toString st.nextId, name := "Weekly Meal Plan",
    planTypeMeta := some "weekly-meal-plan" }

/-- products.create: the new product is prepended (newest first). -/
def createPlanProduct (st : CatalogState) : CatalogState × Product :=
  ({ st with products := planProduct st :: st.products, nextId := st.nextId + 1 },
   planProduct st)

/-- The price the reconciling variant creates when none matches. -/
def planPrice (st : CatalogState) (productId : String) : Price :=
  { id := "price_" ++ toString st.nextId, product := productId,
    unit_amount := 2000, currency := "aud", interval := some "week" }

/-- prices.create: the new price is prepended (newest first). -/
def createPlanPrice (st : CatalogState) (productId : String) : CatalogState × Price :=
  ({ st with prices := planPrice st productId :: st.prices, nextId := st.nextId + 1 },
   planPrice st productId)

/-- The price half of the reconciling variant: list the product's prices
(limit 10, newest first), reuse the first one matching
(amount, currency, interval), create one otherwise. -/
def findOrCreatePlanPrice (st : CatalogState) (productId : String) :
    CatalogState × String :=
  match ((st.prices.filter (fun p => p.product == productId)).take 10).find?
      priceMatchesPlan with
  | some price => (st, price.id)
  | none => ((createPlanPrice st productId).1, (createPlanPrice st productId).2.id)

/-- The catalog reconciler of the reconciling variant of
create-subscription.js: list products (limit 100), reuse the one tagged
with the plan type or create it, then find-or-create the matching price
under it; returns the new state and the price identifier handed to the
subscription initiator. -/
def reconcileCatalog (st : CatalogState) : CatalogState × String :=
  match (st.products.take 100).find? productMatchesPlan with
  | some product => findOrCreatePlanPrice st product.id
  | none => findOrCreatePlanPrice (createPlanProduct st).1 (createPlanProduct st).2.id

/-- A webhook HTTP request as the Netlify function receives it. -/
structure WebhookRequest where
  httpMethod : String
  stripeSignature : Option String
  body : String

/-- Environment and external state of the webhook handler: the configured
signing secret, the platform's signature function (the signature that
stripe.webhooks.constructEvent accepts for a given secret and body), the
parse of a verified body into an event, and the subscription store. -/
structure WebhookWorld where
  stripeWebhookSecret : Option String
  signatureOf : String → String → String
  parseEvent : String → BillingEvent
  subscriptions : List Subscription

/-- stripe.webhooks.constructEvent: succeeds only when the signature
header and the signing secret are both present and the header carries the
valid signature for that secret and body; in every other case it throws,
modelled as none. -/
def constructEvent (w : WebhookWorld) (body : String) (sig : Option String)
    (secret : Option String) : Option BillingEvent :=
  match sig, secret with
  | some s, some k => if s = w.signatureOf k body then some (w.parseEvent body) else none
  | _, _ => none

/-- Outcome of one webhook invocation: HTTP status, the external platform
calls issued (in order), the resulting subscription store. -/
structure WebhookResult where
  statusCode : Nat
  calls : List String
  subscriptions : List Subscription

/-- The switch statement of stripe-webhook.js after verification:
for invoice.payment_succeeded with a (truthy) subscription reference the
subscription is retrieved (a failing retrieve throws and is answered 500),
and if it carries the promotional_weeks_used key it is updated with the
promotional-counter step; every other recognised or unrecognised event is
acknowledged with 200 and no call. -/
def handleBillingEvent (subs : List Subscription) (ev : BillingEvent) :
    Nat × List String × List Subscription :=
  match ev with
  | .invoicePaymentSucceeded _ subRef =>
    match subRef with
    | none => (200, [], subs)
    | some sid =>
      match subs.find? (fun s => s.id == sid) with
      | none => (500, ["subscriptions.retrieve"], subs)
      | some sub =>
        match sub.metadata.promotional_weeks_used with
        | none => (200, ["subscriptions.retrieve"], subs)
        | some _ =>
          (200, ["subscriptions.retrieve", "subscriptions.update"],
           subs.map (fun s => if s.id == sid then processPaymentSucceeded s else s))
  | _ => (200, [], subs)

/-- The webhook handler of stripe-webhook.js: non-POST requests are
answered 405; then the signature is verified against the configured
signing secret, a failure being answered 400 before any platform call;
only then is the event dispatched. -/
def stripeWebhookHandler (w : WebhookWorld) (req : WebhookRequest) : WebhookResult :=
  if req.httpMethod != "POST" then
    { statusCode := 405, calls := [], subscriptions := w.subscriptions }
  else
    match constructEvent w req.body req.stripeSignature w.stripeWebhookSecret with
    | none =>
      { statusCode := 400, calls := [], subscriptions := w.subscriptions }
    | some ev =>
      { statusCode := (handleBillingEvent w.subscriptions ev).1,
        calls := (handleBillingEvent w.subscriptions ev).2.1,
        subscriptions := (handleBillingEvent w.subscriptions ev).2.2 }

/-- A concrete webhook world for the C6 witness. -/
def w6 : WebhookWorld :=
  { stripeWebhookSecret := some "whsec_1",
    signatureOf := fun _ _ => "goodsig",
    parseEvent := fun _ => BillingEvent.otherEvent "x",
    subscriptions := [promoSub] }

/-- A POST webhook request with no signature header. -/
def req6 : WebhookRequest :=
  { httpMethod := "POST", stripeSignature := none, body := "payload" }

/-- A webhook world whose signing secret is absent from configuration. -/
def w8 : WebhookWorld :=
  { stripeWebhookSecret := none,
    signatureOf := fun _ _ => "goodsig",
    parseEvent := fun _ => BillingEvent.otherEvent "x",
    subscriptions := [] }

/-- A well-formed POST webhook request carrying a signature header. -/
def req8 : WebhookRequest :=
  { httpMethod := "POST", stripeSignature := some "goodsig", body := "payload" }

/-- A checkout HTTP request as the Netlify function receives it. -/
structure CheckoutRequest where
  httpMethod : String
  body : Option String

/-- The parsed checkout form fields.  A field missing from the JSON and a
field holding the empty string are identified: both are falsy in the
source's validation. -/
structure CheckoutBody where
  customer_email : String
  customer_name : String
  payment_method_id : String
deriving DecidableEq, Repr

/-- A billing-platform customer: identifier, email (the lookup key),
display name, default payment method, attached payment methods. -/
structure Customer where
  id : String
  email : String
  name : String
  defaultPaymentMethod : Option String
  attachedPaymentMethods : List String
deriving DecidableEq, Repr

/-- Environment and external state of the checkout handlers: the secret
key configuration, body parsing (none models a JSON.parse exception), the
customer and product stores, the outcomes of retrieving and creating the
fixed promotional coupon (none models a thrown platform error), and a
fresh-identifier source for created objects. -/
structure CheckoutWorld where
  stripeSecretKey : Option String
  parseBody : String → Option CheckoutBody
  customers : List Customer
  products : List Product
  couponRetrieveResult : Option String
  couponCreateResult : Option String
  nextId : Nat

/-- The subscription record a checkout creates: identifier, customer,
unit amount of its single item, the optionally attached discount coupon,
and the plan tag written to metadata. -/
structure CreatedSubscription where
  id : String
  customer : String
  unit_amount : Int
  discountCoupon : Option String
  plan_type : String
deriving DecidableEq, Repr

/-- Outcome of one checkout invocation: HTTP status, the external
platform calls issued (in order), the resulting customer store, and the
subscription created, if any. -/
structure CheckoutResult where
  statusCode : Nat
  calls : List String
  customers : List Customer
  createdSubscription : Option CreatedSubscription

/-- The customer step shared by the checkout variants that attach: list
customers by email (limit 1); when one exists, attach the supplied
payment method to it and then overwrite its default payment method (the
display name is not written); otherwise create a customer with that name
and the payment method attached and set as default.  Returns the new
customer store, the customer identifier, and the calls issued. -/
def setupCustomer (customers : List Customer) (nextId : Nat) (b : CheckoutBody) :
    List Customer × String × List String :=
  match (customers.filter (fun cu => cu.email == b.customer_email)).take 1 with
  | c :: _ =>
    ((customers.map (fun cu =>
        if cu.id == c.id then
          { cu with attachedPaymentMethods := b.payment_method_id :: cu.attachedPaymentMethods }
        else cu)).map (fun cu =>
        if cu.id == c.id then { cu with defaultPaymentMethod := some b.payment_method_id }
        else cu),
     c.id,
     ["customers.list", "paymentMethods.attach", "customers.update"])
  | [] =>
    ({ id := "cus_" ++ toString nextId, email := b.customer_email,
       name := b.customer_name,
       defaultPaymentMethod := some b.payment_method_id,
       attachedPaymentMethods := [b.payment_method_id] } :: customers,
     "cus_" ++ toString nextId,
     ["customers.list", "customers.create"])

/-- netlify/functions/create-subscription.js: OPTIONS preflight, POST
gate, configuration check, body checks, required-field validation,
customer step, product lookup by name (limit 10) with creation when
absent, unconditional price creation (3000 minor units, weekly), and
subscription creation. -/
def createSubscriptionHandler (w : CheckoutWorld) (req : CheckoutRequest) :
    CheckoutResult :=
  if req.httpMethod == "OPTIONS" then
    { statusCode := 200, calls := [], customers := w.customers,
      createdSubscription := none }
  else if req.httpMethod != "POST" then
    { statusCode := 405, calls := [], customers := w.customers,
      createdSubscription := none }
  else if jsFalsy w.stripeSecretKey then
    { statusCode := 500, calls := [], customers := w.customers,
      createdSubscription := none }
  else if jsFalsy req.body then
    { statusCode := 400, calls := [], customers := w.customers,
      createdSubscription := none }
  else
    match w.parseBody (req.body.getD "") with
    | none =>
      { statusCode := 500, calls := [], customers := w.customers,
        createdSubscription := none }
    | some b =>
      if b.customer_email == "" || b.customer_name == "" || b.payment_method_id == "" then
        { statusCode := 400, calls := [], customers := w.customers,
          createdSubscription := none }
      else
        { statusCode := 200,
          calls := (setupCustomer w.customers w.nextId b).2.2 ++
            (match (w.products.take 10).find? (fun p => p.name == "Weekly Meal Plan") with
             | some _ => ["products.list"]
             | none => ["products.list", "products.create"]) ++
            ["prices.create", "subscriptions.create"],
          customers := (setupCustomer w.customers w.nextId b).1,
          createdSubscription := some
            { id := "sub_" ++ toString (w.nextId + 1),
              customer := (setupCustomer w.customers w.nextId b).2.1,
              unit_amount := 3000, discountCoupon := none,
              plan_type := "weekly-meal-plan" } }

/-- The coupon step of the coupon-flow variant of create-subscription.js:
try to retrieve the fixed coupon; when the retrieval throws, create it;
when creation throws too, swallow the error and continue with no coupon.
Returns the resolved coupon, if any, and the calls issued. -/
def resolveCoupon (w : CheckoutWorld) : Option String × List String :=
  match w.couponRetrieveResult with
  | some cid => (some cid, ["coupons.retrieve"])
  | none =>
    match w.couponCreateResult with
    | some cid => (some cid, ["coupons.retrieve", "coupons.create"])
    | none => (none, ["coupons.retrieve", "coupons.create"])

/-- The coupon-flow variant of create-subscription.js: same prelude and
customer step, then the swallowed coupon step, then subscription creation
with an inline price (2000 minor units, weekly) and the discount attached
only when a coupon was resolved. -/
def createSubscriptionCouponHandler (w : CheckoutWorld) (req : CheckoutRequest) :
    CheckoutResult :=
  if req.httpMethod == "OPTIONS" then
    { statusCode := 200, calls := [], customers := w.customers,
      createdSubscription := none }
  else if req.httpMethod != "POST" then
    { statusCode := 405, calls := [], customers := w.customers,
      createdSubscription := none }
  else if jsFalsy w.stripeSecretKey then
    { statusCode := 500, calls := [], customers := w.customers,
      createdSubscription := none }
  else if jsFalsy req.body then
    { statusCode := 400, calls := [], customers := w.customers,
      createdSubscription := none }
  else
    match w.parseBody (req.body.getD "") with
    | none =>
      { statusCode := 500, calls := [], customers := w.customers,
        createdSubscription := none }
    | some b =>
      if b.customer_email == "" || b.customer_name == "" || b.payment_method_id == "" then
        { statusCode := 400, calls := [], customers := w.customers,
          createdSubscription := none }
      else
        { statusCode := 200,
          calls := (setupCustomer w.customers w.nextId b).2.2 ++
            (resolveCoupon w).2 ++ ["subscriptions.create"],
          customers := (setupCustomer w.customers w.nextId b).1,
          createdSubscription := some
            { id := "sub_" ++ toString (w.nextId + 1),
              customer := (setupCustomer w.customers w.nextId b).2.1,
              unit_amount := 2000, discountCoupon := (resolveCoupon w).1,
              plan_type := "weekly-meal-plan" } }

/-- A checkout body with an empty payment method token. -/
def b7 : CheckoutBody :=
  { customer_email := "a@x.com", customer_name := "A", payment_method_id := "" }

/-- A checkout world with a configured key that parses every body to b7. -/
def w7 : CheckoutWorld :=
  { stripeSecretKey := some "sk_1", parseBody := fun _ => some b7,
    customers := [], products := [], couponRetrieveResult := none,
    couponCreateResult := none, nextId := 0 }

/-- A POST checkout request with a nonempty body. -/
def creq7 : CheckoutRequest := { httpMethod := "POST", body := some "form" }

/-- A checkout world with no platform secret key configured. -/
def cw8 : CheckoutWorld :=
  { stripeSecretKey := none, parseBody := fun _ => none,
    customers := [], products := [], couponRetrieveResult := none,
    couponCreateResult := none, nextId := 0 }

/-- A POST checkout request for the C8 witness. -/
def creq8 : CheckoutRequest := { httpMethod := "POST", body := some "form" }

/-- A fully valid checkout body. -/
def b9 : CheckoutBody :=
  { customer_email := "a@x.com", customer_name := "A", payment_method_id := "pm_1" }

/-- A checkout world in which both coupon retrieval and creation throw. -/
def cw9 : CheckoutWorld :=
  { stripeSecretKey := some "sk_1", parseBody := fun _ => some b9,
    customers := [], products := [], couponRetrieveResult := none,
    couponCreateResult := none, nextId := 0 }

/-- A POST checkout request for the C9 witness. -/
def creq9 : CheckoutRequest := { httpMethod := "POST", body := some "form" }

/-- An existing customer who already has a default payment method. -/
def c10c : Customer :=
  { id := "cus_9", email := "a@x.com", name := "Existing Name",
    defaultPaymentMethod := some "pm_old", attachedPaymentMethods := ["pm_old"] }

/-- A checkout world whose store already holds c10c. -/
def cw10 : CheckoutWorld :=
  { stripeSecretKey := some "sk_1", parseBody := fun _ => some b9,
    customers := [c10c], products := [], couponRetrieveResult := none,
    couponCreateResult := none, nextId := 0 }

/-- A POST checkout request for the C10 witness. -/
def creq10 : CheckoutRequest := { httpMethod := "POST", body := some "form" }

example :
    (processPaymentSucceeded
      { id := "sub_1", price := promotionalPriceData,
        metadata := initialPromotionalMetadata "a@x.com" "A" }).metadata.promotional_weeks_used
    = some "1" := by decide

example :
    (processPaymentSucceeded
      { id := "sub_1", price := promotionalPriceData,
        metadata := { initialPromotionalMetadata "a@x.com" "A" with
                      promotional_weeks_used := some "3" } })
    = { id := "sub_1", price := regularPriceData,
        metadata := { initialPromotionalMetadata "a@x.com" "A" with
                      promotional_weeks_used := none,
                      promotional_weeks_total := none,
                      price_tier := some "regular" } } := by decide

lemma processPaymentSucceeded_id (sub : Subscription) :
    (processPaymentSucceeded sub).id = sub.id := by
  rcases hm : sub.metadata.promotional_weeks_used with _ | u <;>
    simp only [processPaymentSucceeded, hm]
  split <;> rfl

lemma processEvent_cases (sub : Subscription) (e : BillingEvent) :
    processEvent sub e = sub ∨ processEvent sub e = processPaymentSucceeded sub := by
  cases e with
  | invoicePaymentSucceeded iid ref =>
    cases ref with
    | none => exact Or.inl rfl
    | some sid =>
      by_cases h : sid = sub.id
      · exact Or.inr (by simp [processEvent, h])
      · exact Or.inl (by simp [processEvent, h])
  | invoicePaymentFailed ref => exact Or.inl rfl
  | customerSubscriptionDeleted sid => exact Or.inl rfl
  | otherEvent t => exact Or.inl rfl

lemma step_base0 (sub0 : Subscription) :
    processPaymentSucceeded (withUsed (withTotal sub0 "4") "0")
      = withUsed (withTotal sub0 "4") "1" := rfl

lemma step_base1 (sub0 : Subscription) :
    processPaymentSucceeded (withUsed (withTotal sub0 "4") "1")
      = withUsed (withTotal sub0 "4") "2" := rfl

lemma step_base2 (sub0 : Subscription) :
    processPaymentSucceeded (withUsed (withTotal sub0 "4") "2")
      = withUsed (withTotal sub0 "4") "3" := rfl

lemma step_base3 (sub0 : Subscription) :
    processPaymentSucceeded (withUsed (withTotal sub0 "4") "3")
      = regularized sub0 := rfl

lemma step_regularized (sub0 : Subscription) :
    processPaymentSucceeded (regularized sub0) = regularized sub0 := rfl

lemma reachShape_step (sub0 s : Subscription) (e : BillingEvent)
    (h : reachShape sub0 s) : reachShape sub0 (processEvent s e) := by
  rcases processEvent_cases s e with he | he <;> rw [he]
  · exact h
  · rcases h with h|h|h|h|h <;> subst h
    · exact Or.inr (Or.inl (step_base0 sub0))
    · exact Or.inr (Or.inr (Or.inl (step_base1 sub0)))
    · exact Or.inr (Or.inr (Or.inr (Or.inl (step_base2 sub0))))
    · exact Or.inr (Or.inr (Or.inr (Or.inr (step_base3 sub0))))
    · exact Or.inr (Or.inr (Or.inr (Or.inr (step_regularized sub0))))

lemma reachShape_applyEvents (sub0 s : Subscription) (es : List BillingEvent)
    (h : reachShape sub0 s) : reachShape sub0 (applyEvents s es) := by
  induction es generalizing s with
  | nil => exact h
  | cons e es ih => exact ih (processEvent s e) (reachShape_step sub0 s e h)

lemma self_eq_withUsed (sub0 : Subscription)
    (h1 : sub0.metadata.promotional_weeks_used = some "0")
    (h2 : sub0.metadata.promotional_weeks_total = some "4") :
    sub0 = withUsed (withTotal sub0 "4") "0" := by
  obtain ⟨i, p, m⟩ := sub0
  obtain ⟨ce, cn, pt, wu, wt, rp, tier⟩ := m
  have h1' : wu = some "0" := h1
  have h2' : wt = some "4" := h2
  subst h1' h2'
  rfl

lemma applyEvents_regularized (b : Subscription) (es : List BillingEvent) :
    applyEvents (regularized b) es = regularized b := by
  induction es with
  | nil => rfl
  | cons e es ih =>
    have : processEvent (regularized b) e = regularized b := by
      rcases processEvent_cases (regularized b) e with he | he
      · exact he
      · rw [he, step_regularized]
    show applyEvents (processEvent (regularized b) e) es = regularized b
    rw [this, ih]

lemma countersWithin_withUsed (sub0 : Subscription) (u : String) (nu : Int)
    (hu : parseIntJS u = some nu) (h0 : 0 ≤ nu) (h4 : nu ≤ 4) :
    countersWithin (withUsed (withTotal sub0 "4") u) := by
  intro u2 t2 nu2 nt2 hf1 hf2 hp1 hp2
  have hf1' : some u = some u2 := hf1
  have hf2' : some "4" = some t2 := hf2
  obtain rfl : u = u2 := by injection hf1'
  obtain rfl : "4" = t2 := by injection hf2'
  rw [hu] at hp1
  obtain rfl : nu = nu2 := by injection hp1
  have hp2' : some (4 : Int) = some nt2 := hp2
  obtain rfl : (4 : Int) = nt2 := by injection hp2'
  exact ⟨h0, h4⟩

lemma countersWithin_regularized (sub0 : Subscription) :
    countersWithin (regularized sub0) := by
  intro u2 t2 nu2 nt2 hf1 _ _ _
  exact Option.noConfusion hf1

/-- Claim C3: starting from the promotional initialisation (weeks_used 0,
weeks_total 4), every sequence of billing events keeps the counter
invariant 0 at most weeks_used at most weeks_total on the subscription
metadata, and as soon as the weeks_used key is gone (the threshold was
reached) the weeks_total key is gone too, the active price is the
hardcoded regular price, and no further sequence of events changes the
subscription again: the regular state is absorbing. -/
theorem c3_counter_invariant_absorbing (sub0 : Subscription)
    (h1 : sub0.metadata.promotional_weeks_used = some "0")
    (h2 : sub0.metadata.promotional_weeks_total = some "4")
    (es : List BillingEvent) :
    countersWithin (applyEvents sub0 es) ∧
    ((applyEvents sub0 es).metadata.promotional_weeks_used = none →
       (applyEvents sub0 es).metadata.promotional_weeks_total = none ∧
       (applyEvents sub0 es).price = regularPriceData ∧
       ∀ es2, applyEvents (applyEvents sub0 es) es2 = applyEvents sub0 es) := by
  have hreach : reachShape sub0 (applyEvents sub0 es) :=
    reachShape_applyEvents sub0 sub0 es (Or.inl (self_eq_withUsed sub0 h1 h2))
  constructor
  · rcases hreach with h|h|h|h|h <;> rw [h]
    · exact countersWithin_withUsed sub0 "0" 0 rfl (by norm_num) (by norm_num)
    · exact countersWithin_withUsed sub0 "1" 1 rfl (by norm_num) (by norm_num)
    · exact countersWithin_withUsed sub0 "2" 2 rfl (by norm_num) (by norm_num)
    · exact countersWithin_withUsed sub0 "3" 3 rfl (by norm_num) (by norm_num)
    · exact countersWithin_regularized sub0
  · intro hnone
    rcases hreach with h|h|h|h|h
    · rw [h] at hnone; exact Option.noConfusion hnone
    · rw [h] at hnone; exact Option.noConfusion hnone
    · rw [h] at hnone; exact Option.noConfusion hnone
    · rw [h] at hnone; exact Option.noConfusion hnone
    · rw [h]
      exact ⟨rfl, rfl, fun es2 => applyEvents_regularized sub0 es2⟩

lemma applyEvents_targeted (sub : Subscription) (es : List BillingEvent)
    (hes : ∀ e ∈ es, ∃ iid, e = BillingEvent.invoicePaymentSucceeded iid (some sub.id)) :
    applyEvents sub es = processPaymentSucceeded^[es.length] sub := by
  induction es generalizing sub with
  | nil => rfl
  | cons e es ih =>
    obtain ⟨iid, rfl⟩ := hes e (List.mem_cons_self e es)
    have hstep :
        processEvent sub (BillingEvent.invoicePaymentSucceeded iid (some sub.id))
          = processPaymentSucceeded sub := by
      simp [processEvent]
    have hid : (processPaymentSucceeded sub).id = sub.id := processPaymentSucceeded_id sub
    show applyEvents (processEvent sub _) es = _
    rw [hstep, List.length_cons, Function.iterate_succ_apply]
    exact ih (processPaymentSucceeded sub) (fun e he => by
      obtain ⟨iid2, rfl⟩ := hes e (List.mem_cons_of_mem _ he)
      exact ⟨iid2, by rw [hid]⟩)

/-- Claim C1: for a promotional subscription whose metadata starts at
weeks_used 0 of weeks_total 4, a sequence of successful-payment events for
this subscription behaves as the spec states: after 1, 2 or 3 events the
weeks_used metadata is the decimal numeral of the event count and the
active price is unchanged (still promotional); after the 4th event both
counter keys are gone and the active price is the regular tier. -/
theorem c1_promotional_week_schedule (sub0 : Subscription)
    (h1 : sub0.metadata.promotional_weeks_used = some "0")
    (h2 : sub0.metadata.promotional_weeks_total = some "4")
    (es : List BillingEvent)
    (hes : ∀ e ∈ es, ∃ iid, e = BillingEvent.invoicePaymentSucceeded iid (some sub0.id)) :
    ((es.length = 1 ∨ es.length = 2 ∨ es.length = 3) →
       (applyEvents sub0 es).metadata.promotional_weeks_used = some (toString es.length) ∧
       (applyEvents sub0 es).price = sub0.price) ∧
    (es.length = 4 →
       (applyEvents sub0 es).metadata.promotional_weeks_used = none ∧
       (applyEvents sub0 es).metadata.promotional_weeks_total = none ∧
       (applyEvents sub0 es).price = regularPriceData) := by
  have hbase := self_eq_withUsed sub0 h1 h2
  have k1 : processPaymentSucceeded^[1] sub0 = withUsed (withTotal sub0 "4") "1" := by
    rw [Function.iterate_one]
    conv_lhs => rw [hbase]
    exact step_base0 sub0
  have k2 : processPaymentSucceeded^[2] sub0 = withUsed (withTotal sub0 "4") "2" := by
    rw [show (2 : Nat) = 1 + 1 from rfl, Function.iterate_add_apply, k1,
      Function.iterate_one]
    exact step_base1 sub0
  have k3 : processPaymentSucceeded^[3] sub0 = withUsed (withTotal sub0 "4") "3" := by
    rw [show (3 : Nat) = 1 + 2 from rfl, Function.iterate_add_apply, k2,
      Function.iterate_one]
    exact step_base2 sub0
  have k4 : processPaymentSucceeded^[4] sub0 = regularized sub0 := by
    rw [show (4 : Nat) = 1 + 3 from rfl, Function.iterate_add_apply, k3,
      Function.iterate_one]
    exact step_base3 sub0
  rw [applyEvents_targeted sub0 es hes]
  constructor
  · rintro (h|h|h) <;> rw [h]
    · rw [k1]; exact ⟨rfl, rfl⟩
    · rw [k2]; exact ⟨rfl, rfl⟩
    · rw [k3]; exact ⟨rfl, rfl⟩
  · intro h
    rw [h, k4]
    exact ⟨rfl, rfl, rfl⟩

lemma fourPaymentEvents_targeted :
    ∀ e ∈ fourPaymentEvents,
      ∃ iid, e = BillingEvent.invoicePaymentSucceeded iid (some promoSub.id) := by
  intro e he
  simp only [fourPaymentEvents, List.mem_cons, List.not_mem_nil, or_false] at he
  rcases he with rfl | rfl | rfl | rfl
  · exact ⟨"in_1", rfl⟩
  · exact ⟨"in_2", rfl⟩
  · exact ⟨"in_3", rfl⟩
  · exact ⟨"in_4", rfl⟩

/-- Witness for claim C1 at a concrete input: the initial promotional
subscription after the four concrete payment events. -/
theorem c1_promotional_week_schedule_witness :
    promoSub.metadata.promotional_weeks_used = some "0" ∧
    promoSub.metadata.promotional_weeks_total = some "4" ∧
    (applyEvents promoSub fourPaymentEvents).metadata.promotional_weeks_used = none ∧
    (applyEvents promoSub fourPaymentEvents).price = regularPriceData := by
  refine ⟨rfl, rfl, ?_, ?_⟩
  · exact ((c1_promotional_week_schedule promoSub rfl rfl fourPaymentEvents
      fourPaymentEvents_targeted).2 rfl).1
  · exact ((c1_promotional_week_schedule promoSub rfl rfl fourPaymentEvents
      fourPaymentEvents_targeted).2 rfl).2.2

/-- Witness for claim C3 at a concrete input. -/
theorem c3_counter_invariant_absorbing_witness :
    promoSub.metadata.promotional_weeks_used = some "0" ∧
    promoSub.metadata.promotional_weeks_total = some "4" ∧
    (applyEvents promoSub fourPaymentEvents).metadata.promotional_weeks_total = none ∧
    (applyEvents promoSub fourPaymentEvents).price = regularPriceData := by
  refine ⟨rfl, rfl, ?_, ?_⟩
  · exact ((c3_counter_invariant_absorbing promoSub rfl rfl fourPaymentEvents).2 rfl).1
  · exact ((c3_counter_invariant_absorbing promoSub rfl rfl fourPaymentEvents).2 rfl).2.1

/-- Claim C2 is refuted by the code: the webhook records no de-duplication
key, so delivering the identical successful-payment event (the very same
invoice identifier in_1) a second time increments the promotional counter
again: after one delivery the counter is 1, after redelivering the same
event it is 2, not the 1 the claim requires. -/
theorem c2_redelivery_double_increment :
    (applyEvents promoSub
        [BillingEvent.invoicePaymentSucceeded "in_1" (some "sub_1")]).metadata.promotional_weeks_used
      = some "1" ∧
    (applyEvents promoSub
        [BillingEvent.invoicePaymentSucceeded "in_1" (some "sub_1"),
         BillingEvent.invoicePaymentSucceeded "in_1" (some "sub_1")]).metadata.promotional_weeks_used
      = some "2" ∧
    (some "2" : Option String) ≠ some "1" := by
  refine ⟨rfl, rfl, by decide⟩

/-- Claim C4 counterexample: at c4Sub the switch to regular pricing fires,
but the new unit amount is the hardcoded 2000, not the 2500 stored in the
regular_price_amount metadata, refuting the claim that the amount is taken
from that field. -/
theorem c4_regular_amount_counterexample :
    c4Sub.metadata.regular_price_amount = some "2500" ∧
    parseIntJS "2500" = some 2500 ∧
    (processPaymentSucceeded c4Sub).metadata.promotional_weeks_used = none ∧
    (processPaymentSucceeded c4Sub).price.unit_amount = 2000 ∧
    (2000 : Int) ≠ 2500 := by
  exact ⟨rfl, by decide, rfl, rfl, by decide⟩

/-- Claim C4 (amended): when the webhook switches a promotional
subscription to regular pricing (the incremented counter reaches the
parsed, non-zero weeks_total), the new price is the hardcoded regular
price (unit amount 2000; the regular_price_amount metadata field is not
consulted), both promotional week-counter keys are cleared, and the
plan_type metadata (and the regular_price_amount field itself) are
preserved unchanged. -/
theorem c4_switch_hardcoded_amount (sub : Subscription) (u t : String) (nu nt : Int)
    (hu : sub.metadata.promotional_weeks_used = some u)
    (hpu : parseIntJS u = some nu)
    (ht : sub.metadata.promotional_weeks_total = some t)
    (hpt : parseIntJS t = some nt)
    (hnz : nt ≠ 0)
    (hge : nt ≤ nu + 1) :
    processPaymentSucceeded sub = regularized sub ∧
    (processPaymentSucceeded sub).price = regularPriceData ∧
    (processPaymentSucceeded sub).price.unit_amount = 2000 ∧
    (processPaymentSucceeded sub).metadata.promotional_weeks_used = none ∧
    (processPaymentSucceeded sub).metadata.promotional_weeks_total = none ∧
    (processPaymentSucceeded sub).metadata.plan_type = sub.metadata.plan_type ∧
    (processPaymentSucceeded sub).metadata.regular_price_amount
      = sub.metadata.regular_price_amount := by
  have hmain : processPaymentSucceeded sub = regularized sub := by
    unfold processPaymentSucceeded
    rw [hu]
    have htot : parseOptIntJS sub.metadata.promotional_weeks_total = some nt := by
      rw [ht]; exact hpt
    simp only [htot, hpu, Option.map_some', jsOrDefault, if_neg hnz, jsGe,
      decide_eq_true_eq]
    rw [if_pos hge]
    rfl
  rw [hmain]
  exact ⟨rfl, rfl, rfl, rfl, rfl, rfl, rfl⟩

/-- Witness for the amended claim C4 at the concrete input c4Sub. -/
theorem c4_switch_hardcoded_amount_witness :
    c4Sub.metadata.promotional_weeks_used = some "3" ∧
    c4Sub.metadata.promotional_weeks_total = some "4" ∧
    (processPaymentSucceeded c4Sub).price = regularPriceData ∧
    (processPaymentSucceeded c4Sub).metadata.plan_type = some "weekly-meal-plan" := by
  refine ⟨rfl, rfl, ?_, ?_⟩
  · exact (c4_switch_hardcoded_amount c4Sub "3" "4" 3 4 rfl (by decide) rfl (by decide)
      (by decide) (by decide)).2.1
  · have h := (c4_switch_hardcoded_amount c4Sub "3" "4" 3 4 rfl (by decide) rfl (by decide)
      (by decide) (by decide)).2.2.2.2.2.1
    rw [h]
    rfl

lemma find?_take_cons_of_pos {α : Type} (p : α → Bool) (a : α) (l : List α) (n : Nat)
    (hn : n ≠ 0) (ha : p a = true) :
    ((a :: l).take n).find? p = some a := by
  cases n with
  | zero => exact absurd rfl hn
  | succ m =>
    rw [List.take_succ_cons]
    exact List.find?_cons_of_pos _ ha

lemma findOrCreatePlanPrice_products (st : CatalogState) (pid : String) :
    (findOrCreatePlanPrice st pid).1.products = st.products := by
  unfold findOrCreatePlanPrice
  split <;> rfl

lemma findOrCreatePlanPrice_idem (st : CatalogState) (pid : String) :
    findOrCreatePlanPrice (findOrCreatePlanPrice st pid).1 pid
      = findOrCreatePlanPrice st pid := by
  cases h : ((st.prices.filter (fun p => p.product == pid)).take 10).find? priceMatchesPlan with
  | some e =>
    have h1 : findOrCreatePlanPrice st pid = (st, e.id) := by
      unfold findOrCreatePlanPrice
      rw [h]
    rw [h1]
    show findOrCreatePlanPrice st pid = (st, e.id)
    exact h1
  | none =>
    have h1 : findOrCreatePlanPrice st pid
        = ({ st with prices := planPrice st pid :: st.prices, nextId := st.nextId + 1 },
           (planPrice st pid).id) := by
      unfold findOrCreatePlanPrice
      rw [h]
      rfl
    rw [h1]
    have hfind :
        ((({ st with prices := planPrice st pid :: st.prices, nextId := st.nextId + 1 }
            : CatalogState).prices.filter (fun p => p.product == pid)).take 10).find?
            priceMatchesPlan
          = some (planPrice st pid) := by
      show (((planPrice st pid :: st.prices).filter (fun p => p.product == pid)).take 10).find?
            priceMatchesPlan = some (planPrice st pid)
      rw [List.filter_cons_of_pos]
      · exact find?_take_cons_of_pos priceMatchesPlan (planPrice st pid) _ 10 (by decide) rfl
      · exact beq_self_eq_true pid
    unfold findOrCreatePlanPrice
    rw [hfind]

lemma reconcileCatalog_found (st : CatalogState) (P : Product)
    (hP : (st.products.take 100).find? productMatchesPlan = some P) :
    reconcileCatalog st = findOrCreatePlanPrice st P.id := by
  unfold reconcileCatalog
  rw [hP]

lemma reconcileCatalog_notFound (st : CatalogState)
    (hP : (st.products.take 100).find? productMatchesPlan = none) :
    reconcileCatalog st
      = findOrCreatePlanPrice (createPlanProduct st).1 (planProduct st).id := by
  unfold reconcileCatalog
  rw [hP]
  rfl

lemma reconcileCatalog_idem (st : CatalogState) :
    reconcileCatalog (reconcileCatalog st).1 = reconcileCatalog st := by
  cases hP : (st.products.take 100).find? productMatchesPlan with
  | some P =>
    rw [reconcileCatalog_found st P hP]
    have hP2 : ((findOrCreatePlanPrice st P.id).1.products.take 100).find? productMatchesPlan
        = some P := by
      rw [findOrCreatePlanPrice_products]
      exact hP
    rw [reconcileCatalog_found _ P hP2]
    exact findOrCreatePlanPrice_idem st P.id
  | none =>
    rw [reconcileCatalog_notFound st hP]
    have hQ : ((findOrCreatePlanPrice (createPlanProduct st).1
          (planProduct st).id).1.products.take 100).find? productMatchesPlan
        = some (planProduct st) := by
      rw [findOrCreatePlanPrice_products]
      show ((planProduct st :: st.products).take 100).find? productMatchesPlan
        = some (planProduct st)
      exact find?_take_cons_of_pos productMatchesPlan (planProduct st) _ 100 (by decide) rfl
    rw [reconcileCatalog_found _ (planProduct st) hQ]
    exact findOrCreatePlanPrice_idem (createPlanProduct st).1 (planProduct st).id

/-- Claim C5: the catalog reconciliation of the reconciling variant is
idempotent against the external state it produced: run a second time with
the identical (amount, currency, interval) target on the state left by
the first invocation, it returns the same price reference and the very
same state, so no second price object is created. -/
theorem c5_reconcile_idempotent (st : CatalogState) :
    (reconcileCatalog (reconcileCatalog st).1).2 = (reconcileCatalog st).2 ∧
    (reconcileCatalog (reconcileCatalog st).1).1 = (reconcileCatalog st).1 := by
  have h := reconcileCatalog_idem st
  exact ⟨by rw [h], by rw [h]⟩

lemma stripeWebhookHandler_unverified (w : WebhookWorld) (req : WebhookRequest)
    (hm : req.httpMethod = "POST")
    (hce : constructEvent w req.body req.stripeSignature w.stripeWebhookSecret = none) :
    stripeWebhookHandler w req =
      { statusCode := 400, calls := [], subscriptions := w.subscriptions } := by
  unfold stripeWebhookHandler
  rw [if_neg (by rw [hm]; decide), hce]

lemma constructEvent_no_secret (w : WebhookWorld) (body : String) (sig : Option String) :
    constructEvent w body sig none = none := by
  cases sig <;> rfl

/-- Claim C6: a POST webhook request whose signature header is missing, or
whose signature fails verification against the signing secret, is answered
with status 400, no external retrieve or update call is issued, and the
subscription store is untouched. -/
theorem c6_unverified_webhook_rejected (w : WebhookWorld) (req : WebhookRequest)
    (hm : req.httpMethod = "POST")
    (hv : req.stripeSignature = none ∨
          constructEvent w req.body req.stripeSignature w.stripeWebhookSecret = none) :
    (stripeWebhookHandler w req).statusCode = 400 ∧
    (stripeWebhookHandler w req).calls = [] ∧
    (stripeWebhookHandler w req).subscriptions = w.subscriptions := by
  have hce : constructEvent w req.body req.stripeSignature w.stripeWebhookSecret = none := by
    rcases hv with h | h
    · rw [h]
      unfold constructEvent
      cases w.stripeWebhookSecret <;> rfl
    · exact h
  rw [stripeWebhookHandler_unverified w req hm hce]
  exact ⟨rfl, rfl, rfl⟩

/-- Witness for claim C6 at a concrete input. -/
theorem c6_unverified_webhook_rejected_witness :
    req6.httpMethod = "POST" ∧ req6.stripeSignature = none ∧
    (stripeWebhookHandler w6 req6).statusCode = 400 ∧
    (stripeWebhookHandler w6 req6).calls = [] ∧
    (stripeWebhookHandler w6 req6).subscriptions = w6.subscriptions := by
  refine ⟨rfl, rfl, ?_, ?_, ?_⟩
  · exact (c6_unverified_webhook_rejected w6 req6 rfl (Or.inl rfl)).1
  · exact (c6_unverified_webhook_rejected w6 req6 rfl (Or.inl rfl)).2.1
  · exact (c6_unverified_webhook_rejected w6 req6 rfl (Or.inl rfl)).2.2

/-- Claim C8 counterexample: with the webhook signing secret absent from
configuration, the webhook handler answers 400 (signature verification
throws), not the 500 the claim states. -/
theorem c8_webhook_secret_counterexample :
    w8.stripeWebhookSecret = none ∧
    (stripeWebhookHandler w8 req8).statusCode = 400 ∧
    (stripeWebhookHandler w8 req8).statusCode ≠ 500 := by
  exact ⟨rfl, rfl, by decide⟩

/-- Claim C7: a POST checkout request in which customer_email,
customer_name or payment_method_id is missing or empty is answered 400,
and no external platform call of any kind is issued: customer store and
calls are untouched and no subscription is created. -/
theorem c7_missing_fields_rejected (w : CheckoutWorld) (req : CheckoutRequest)
    (b : CheckoutBody)
    (hm : req.httpMethod = "POST")
    (hkey : jsFalsy w.stripeSecretKey = false)
    (hb : jsFalsy req.body = false)
    (hp : w.parseBody (req.body.getD "") = some b)
    (hv : (b.customer_email == "" || b.customer_name == "" || b.payment_method_id == "")
            = true) :
    (createSubscriptionHandler w req).statusCode = 400 ∧
    (createSubscriptionHandler w req).calls = [] ∧
    (createSubscriptionHandler w req).customers = w.customers ∧
    (createSubscriptionHandler w req).createdSubscription = none := by
  have hres : createSubscriptionHandler w req =
      { statusCode := 400, calls := [], customers := w.customers,
        createdSubscription := none } := by
    unfold createSubscriptionHandler
    rw [if_neg (by rw [hm]; decide), if_neg (by rw [hm]; decide),
        if_neg (by rw [hkey]; decide), if_neg (by rw [hb]; decide)]
    simp only [hp]
    rw [if_pos hv]
  rw [hres]
  exact ⟨rfl, rfl, rfl, rfl⟩

/-- Witness for claim C7 at a concrete input. -/
theorem c7_missing_fields_rejected_witness :
    b7.payment_method_id = "" ∧
    (createSubscriptionHandler w7 creq7).statusCode = 400 ∧
    (createSubscriptionHandler w7 creq7).calls = [] := by
  refine ⟨rfl, ?_, ?_⟩
  · exact (c7_missing_fields_rejected w7 creq7 b7 rfl rfl rfl rfl (by decide)).1
  · exact (c7_missing_fields_rejected w7 creq7 b7 rfl rfl rfl rfl (by decide)).2.1

/-- Claim C8 (amended): a POST checkout request with the platform secret
key absent (or empty) is answered 500 before any external call; a POST
webhook request with the signing secret absent from configuration is
answered 400 (signature verification throws inside constructEvent), not
500, still before any external call and with no subscription mutation. -/
theorem c8_missing_secret_amended :
    (∀ (w : CheckoutWorld) (req : CheckoutRequest),
       req.httpMethod = "POST" → jsFalsy w.stripeSecretKey = true →
       (createSubscriptionHandler w req).statusCode = 500 ∧
       (createSubscriptionHandler w req).calls = [] ∧
       (createSubscriptionHandler w req).customers = w.customers) ∧
    (∀ (w : WebhookWorld) (req : WebhookRequest),
       req.httpMethod = "POST" → w.stripeWebhookSecret = none →
       (stripeWebhookHandler w req).statusCode = 400 ∧
       (stripeWebhookHandler w req).calls = [] ∧
       (stripeWebhookHandler w req).subscriptions = w.subscriptions) := by
  constructor
  · intro w req hm hkey
    have hres : createSubscriptionHandler w req =
        { statusCode := 500, calls := [], customers := w.customers,
          createdSubscription := none } := by
      unfold createSubscriptionHandler
      rw [if_neg (by rw [hm]; decide), if_neg (by rw [hm]; decide), if_pos hkey]
    rw [hres]
    exact ⟨rfl, rfl, rfl⟩
  · intro w req hm hsec
    have hce : constructEvent w req.body req.stripeSignature w.stripeWebhookSecret
        = none := by
      rw [hsec]
      exact constructEvent_no_secret w req.body req.stripeSignature
    rw [stripeWebhookHandler_unverified w req hm hce]
    exact ⟨rfl, rfl, rfl⟩

/-- Witness for the amended claim C8 at concrete inputs for both halves. -/
theorem c8_missing_secret_amended_witness :
    jsFalsy cw8.stripeSecretKey = true ∧
    (createSubscriptionHandler cw8 creq8).statusCode = 500 ∧
    w8.stripeWebhookSecret = none ∧
    (stripeWebhookHandler w8 req8).calls = [] := by
  refine ⟨rfl, ?_, rfl, ?_⟩
  · exact (c8_missing_secret_amended.1 cw8 creq8 rfl rfl).1
  · exact (c8_missing_secret_amended.2 w8 req8 rfl rfl).2.1

/-- Claim C9: on a valid POST checkout through the coupon-flow variant in
which both coupon retrieval and coupon creation fail, the failure is
swallowed: the handler still answers 200, the subscription is still
created, and it carries no discount coupon. -/
theorem c9_coupon_failure_swallowed (w : CheckoutWorld) (req : CheckoutRequest)
    (b : CheckoutBody)
    (hm : req.httpMethod = "POST")
    (hkey : jsFalsy w.stripeSecretKey = false)
    (hb : jsFalsy req.body = false)
    (hp : w.parseBody (req.body.getD "") = some b)
    (hv : (b.customer_email == "" || b.customer_name == "" || b.payment_method_id == "")
            = false)
    (hr : w.couponRetrieveResult = none)
    (hc : w.couponCreateResult = none) :
    (createSubscriptionCouponHandler w req).statusCode = 200 ∧
    (createSubscriptionCouponHandler w req).createdSubscription = some
      { id := "sub_" ++ toString (w.nextId + 1),
        customer := (setupCustomer w.customers w.nextId b).2.1,
        unit_amount := 2000, discountCoupon := none,
        plan_type := "weekly-meal-plan" } ∧
    "subscriptions.create" ∈ (createSubscriptionCouponHandler w req).calls := by
  have hcoupon : resolveCoupon w = (none, ["coupons.retrieve", "coupons.create"]) := by
    unfold resolveCoupon
    rw [hr, hc]
  have hres : createSubscriptionCouponHandler w req =
      { statusCode := 200,
        calls := (setupCustomer w.customers w.nextId b).2.2 ++
          ["coupons.retrieve", "coupons.create"] ++ ["subscriptions.create"],
        customers := (setupCustomer w.customers w.nextId b).1,
        createdSubscription := some
          { id := "sub_" ++ toString (w.nextId + 1),
            customer := (setupCustomer w.customers w.nextId b).2.1,
            unit_amount := 2000, discountCoupon := none,
            plan_type := "weekly-meal-plan" } } := by
    unfold createSubscriptionCouponHandler
    rw [if_neg (by rw [hm]; decide), if_neg (by rw [hm]; decide),
        if_neg (by rw [hkey]; decide), if_neg (by rw [hb]; decide)]
    simp only [hp]
    rw [if_neg (by rw [hv]; decide), hcoupon]
  rw [hres]
  refine ⟨rfl, rfl, ?_⟩
  simp

/-- Witness for claim C9 at a concrete input: the subscription is created
with no discount and the response is the normal success. -/
theorem c9_coupon_failure_swallowed_witness :
    cw9.couponRetrieveResult = none ∧
    cw9.couponCreateResult = none ∧
    (createSubscriptionCouponHandler cw9 creq9).statusCode = 200 ∧
    (createSubscriptionCouponHandler cw9 creq9).createdSubscription = some
      { id := "sub_1", customer := "cus_0", unit_amount := 2000,
        discountCoupon := none, plan_type := "weekly-meal-plan" } := by
  refine ⟨rfl, rfl, ?_, ?_⟩
  · exact (c9_coupon_failure_swallowed cw9 creq9 b9 rfl rfl rfl rfl (by decide)
      rfl rfl).1
  · have h := (c9_coupon_failure_swallowed cw9 creq9 b9 rfl rfl rfl rfl (by decide)
      rfl rfl).2.1
    rw [h]
    rfl

/-- Claim C10: on a valid POST checkout whose email matches an existing
customer, the handler unconditionally attaches the supplied payment
method and overwrites that customer's default payment method with it —
with no condition on whether a default was already set — while every
customer's display name is left unchanged (the supplied customer_name is
not written to the existing record); the attach and update calls are
issued and no customer-creation call is. -/
theorem c10_existing_customer_attach (w : CheckoutWorld) (req : CheckoutRequest)
    (b : CheckoutBody) (c : Customer) (rest : List Customer)
    (hm : req.httpMethod = "POST")
    (hkey : jsFalsy w.stripeSecretKey = false)
    (hb : jsFalsy req.body = false)
    (hp : w.parseBody (req.body.getD "") = some b)
    (hv : (b.customer_email == "" || b.customer_name == "" || b.payment_method_id == "")
            = false)
    (hfound : (w.customers.filter (fun cu => cu.email == b.customer_email)).take 1
                = c :: rest) :
    (createSubscriptionHandler w req).customers
      = w.customers.map (fun cu =>
          if cu.id == c.id then
            { cu with
              defaultPaymentMethod := some b.payment_method_id
              attachedPaymentMethods := b.payment_method_id :: cu.attachedPaymentMethods }
          else cu) ∧
    (createSubscriptionHandler w req).customers.map Customer.name
      = w.customers.map Customer.name ∧
    "paymentMethods.attach" ∈ (createSubscriptionHandler w req).calls ∧
    "customers.update" ∈ (createSubscriptionHandler w req).calls ∧
    "customers.create" ∉ (createSubscriptionHandler w req).calls := by
  have hsetup : setupCustomer w.customers w.nextId b
      = ((w.customers.map (fun cu =>
            if cu.id == c.id then
              { cu with attachedPaymentMethods :=
                  b.payment_method_id :: cu.attachedPaymentMethods }
            else cu)).map (fun cu =>
            if cu.id == c.id then
              { cu with defaultPaymentMethod := some b.payment_method_id }
            else cu),
         c.id, ["customers.list", "paymentMethods.attach", "customers.update"]) := by
    unfold setupCustomer
    rw [hfound]
  have hfuse : (w.customers.map (fun cu =>
          if cu.id == c.id then
            { cu with attachedPaymentMethods :=
                b.payment_method_id :: cu.attachedPaymentMethods }
          else cu)).map (fun cu =>
          if cu.id == c.id then
            { cu with defaultPaymentMethod := some b.payment_method_id }
          else cu)
      = w.customers.map (fun cu =>
          if cu.id == c.id then
            { cu with
              defaultPaymentMethod := some b.payment_method_id
              attachedPaymentMethods := b.payment_method_id :: cu.attachedPaymentMethods }
          else cu) := by
    rw [List.map_map]
    refine List.map_congr_left ?_
    intro cu _
    obtain ⟨cid, cem, cnm, cdef, catt⟩ := cu
    by_cases h : cid = c.id
    · simp [h]
    · simp [h]
  have hred : createSubscriptionHandler w req =
      { statusCode := 200,
        calls := (setupCustomer w.customers w.nextId b).2.2 ++
          (match (w.products.take 10).find? (fun p => p.name == "Weekly Meal Plan") with
           | some _ => ["products.list"]
           | none => ["products.list", "products.create"]) ++
          ["prices.create", "subscriptions.create"],
        customers := (setupCustomer w.customers w.nextId b).1,
        createdSubscription := some
          { id := "sub_" ++ toString (w.nextId + 1),
            customer := (setupCustomer w.customers w.nextId b).2.1,
            unit_amount := 3000, discountCoupon := none,
            plan_type := "weekly-meal-plan" } } := by
    unfold createSubscriptionHandler
    rw [if_neg (by rw [hm]; decide), if_neg (by rw [hm]; decide),
        if_neg (by rw [hkey]; decide), if_neg (by rw [hb]; decide)]
    simp only [hp]
    rw [if_neg (by rw [hv]; decide)]
  have hcust : (createSubscriptionHandler w req).customers
      = w.customers.map (fun cu =>
          if cu.id == c.id then
            { cu with
              defaultPaymentMethod := some b.payment_method_id
              attachedPaymentMethods := b.payment_method_id :: cu.attachedPaymentMethods }
          else cu) := by
    rw [hred]
    show (setupCustomer w.customers w.nextId b).1 = _
    rw [hsetup]
    exact hfuse
  have hpc : ∀ x ∈ (match (w.products.take 10).find? (fun p => p.name == "Weekly Meal Plan")
        with
        | some _ => ["products.list"]
        | none => ["products.list", "products.create"]),
      x ≠ "customers.create" := by
    cases hfind : (w.products.take 10).find? (fun p => p.name == "Weekly Meal Plan") with
    | some P => intro x hx; simp only [List.mem_singleton] at hx; subst hx; decide
    | none =>
      intro x hx
      simp only [List.mem_cons, List.not_mem_nil, or_false] at hx
      rcases hx with rfl | rfl <;> decide
  refine ⟨hcust, ?_, ?_, ?_, ?_⟩
  · rw [hcust, List.map_map]
    refine List.map_congr_left ?_
    intro cu _
    obtain ⟨cid, cem, cnm, cdef, catt⟩ := cu
    by_cases h : cid = c.id
    · simp [h]
    · simp [h]
  · rw [hred]
    show "paymentMethods.attach" ∈ (setupCustomer w.customers w.nextId b).2.2 ++ _ ++ _
    rw [hsetup]
    simp only [List.mem_append]
    left; left; decide
  · rw [hred]
    show "customers.update" ∈ (setupCustomer w.customers w.nextId b).2.2 ++ _ ++ _
    rw [hsetup]
    simp only [List.mem_append]
    left; left; decide
  · rw [hred]
    show "customers.create" ∉ (setupCustomer w.customers w.nextId b).2.2 ++ _ ++ _
    rw [hsetup]
    intro hmem
    simp only [List.mem_append] at hmem
    rcases hmem with (h1 | h2) | h3
    · exact absurd h1 (by decide)
    · exact hpc _ h2 rfl
    · exact absurd h3 (by decide)

/-- Witness for claim C10 at a concrete input: the already-set default
payment method pm_old is overwritten with the supplied pm_1 and the
display name is untouched. -/
theorem c10_existing_customer_attach_witness :
    c10c.defaultPaymentMethod = some "pm_old" ∧
    (createSubscriptionHandler cw10 creq10).customers =
      [{ id := "cus_9", email := "a@x.com", name := "Existing Name",
         defaultPaymentMethod := some "pm_1",
         attachedPaymentMethods := ["pm_1", "pm_old"] }] ∧
    "paymentMethods.attach" ∈ (createSubscriptionHandler cw10 creq10).calls := by
  refine ⟨rfl, ?_, ?_⟩
  · have h := (c10_existing_customer_attach cw10 creq10 b9 c10c [] rfl rfl rfl rfl
      (by decide) rfl).1
    rw [h]
    rfl
  · exact (c10_existing_customer_attach cw10 creq10 b9 c10c [] rfl rfl rfl rfl
      (by decide) rfl).2.2.1
